import Mathlib

/-!
Shallow embedding of the pydantic request/response models in `src/models.py`
of the repository. Python `str` values are modelled as `List Char`
(Unicode code points, as in Python); each `@validator` method becomes a
function returning `Except String (List Char)` whose error strings are the
exact `ValueError` messages of the source. Python regular-expression checks
of the form `re.match(pattern, v)` are embedded by hand per pattern,
including the CPython semantics of the `$` anchor, which also matches just
before a single newline that ends the string. ASCII character classes are
embedded exactly; the Unicode-aware classes `\s` and `\d` and the Unicode
case maps of `str.lower`/`str.upper` are embedded by their standard
whitespace set and their ASCII behaviour respectively, which agree with
CPython on every input considered here. Python `float` fields are modelled
as `ℚ` (all bounds in the source are exactly representable, so `<`/`>`
comparisons agree with IEEE-754 on finite values); Python `int` as `ℤ`;
`datetime` values as an abstract `Int` timestamp.
-/

deriving instance DecidableEq for Except

namespace EzModels

/-- The whitespace set stripped by Python `str.strip()` and matched by the
regex class `\s` (Unicode whitespace). -/
def isPySpace (c : Char) : Bool :=
  c = ' ' || c = '\t' || c = '\n' || c = '\r' ||
  c = Char.ofNat 0x0b || c = Char.ofNat 0x0c ||
  c = Char.ofNat 0x1c || c = Char.ofNat 0x1d ||
  c = Char.ofNat 0x1e || c = Char.ofNat 0x1f ||
  c = Char.ofNat 0x85 || c = Char.ofNat 0xa0 ||
  c = Char.ofNat 0x1680 ||
  (Char.ofNat 0x2000 ≤ c && c ≤ Char.ofNat 0x200a) ||
  c = Char.ofNat 0x2028 || c = Char.ofNat 0x2029 ||
  c = Char.ofNat 0x202f || c = Char.ofNat 0x205f ||
  c = Char.ofNat 0x3000

/-- Python `str.strip()`: remove leading and trailing whitespace. -/
def pyStrip (s : List Char) : List Char :=
  ((s.dropWhile isPySpace).reverse.dropWhile isPySpace).reverse

/-- Python `str.lower()` (ASCII case map; the inputs treated here contain no
non-ASCII cased letters). -/
def pyLower (s : List Char) : List Char := s.map Char.toLower

/-- Python `str.upper()` (ASCII case map). -/
def pyUpper (s : List Char) : List Char := s.map Char.toUpper

/-- The apostrophe character `U+0027`. -/
def apos : Char := Char.ofNat 39

/-- Per-character translation of Python `html.escape(s, quote=True)`:
the characters amp, lt, gt, double quote and apostrophe become their HTML entities. CPython performs the five
`str.replace` calls with `&` first, which is equivalent to this
character-wise map. -/
def escChar (c : Char) : List Char :=
  if c = '&' then "&amp;".toList
  else if c = '<' then "&lt;".toList
  else if c = '>' then "&gt;".toList
  else if c = '"' then "&quot;".toList
  else if c = apos then "&#x27;".toList
  else [c]

/-- Python `html.escape(s)` (with the default `quote=True`). -/
def htmlEscape (s : List Char) : List Char := s.flatMap escChar

def isAsciiUpper (c : Char) : Bool := 'A' ≤ c && c ≤ 'Z'

def isAsciiLower (c : Char) : Bool := 'a' ≤ c && c ≤ 'z'

def isAsciiAlpha (c : Char) : Bool := isAsciiUpper c || isAsciiLower c

def isAsciiDigit (c : Char) : Bool := '0' ≤ c && c ≤ '9'

def isAlnum (c : Char) : Bool := isAsciiAlpha c || isAsciiDigit c

/-- Drop one trailing newline, if the string ends in one: the positions at
which the CPython `$` anchor matches are exactly the ends of `chopNL s`. -/
def chopNL (s : List Char) : List Char :=
  if s.getLast? = some '\n' then s.dropLast else s

/-- CPython `re.match` of a pattern `^[C]+$` against `s`: after discounting
one trailing newline (tolerated by `$`), the string must be nonempty and
consist only of characters of the class `C`. -/
def matchClassPlusEnd (C : Char → Bool) (s : List Char) : Bool :=
  let t := chopNL s
  !t.isEmpty && t.all C

/-- Character class of the local part of the e-mail pattern,
`[a-zA-Z0-9._%+-]`. -/
def localChar (c : Char) : Bool :=
  isAlnum c || c = '.' || c = '_' || c = '%' || c = '+' || c = '-'

/-- Character class of the domain part of the e-mail pattern,
`[a-zA-Z0-9.-]`. -/
def domainChar (c : Char) : Bool :=
  isAlnum c || c = '.' || c = '-'

/-- The part after `@` must match `[a-zA-Z0-9.-]+\.[a-zA-Z]{2,}$`.
Since the TLD consists of letters only, the separating dot is necessarily
the last dot of the string, which makes the backtracking search
deterministic: take the maximal letter suffix, require a dot right before
it, and a nonempty domain-class prefix before that. -/
def emailTail (r : List Char) : Bool :=
  let rev := r.reverse
  let suf := rev.takeWhile isAsciiAlpha
  match rev.drop suf.length with
  | '.' :: drev => decide (2 ≤ suf.length) && !drev.isEmpty && drev.all domainChar
  | _ => false

/-- CPython `re.match` of the full e-mail pattern (local part, `@`, domain,
dot, TLD of two or more letters, `$`).
`@` belongs to neither character class, so the local part extends exactly to
the first `@`; one trailing newline is tolerated by `$`. -/
def emailMatch (s : List Char) : Bool :=
  let t := chopNL s
  let l := t.takeWhile localChar
  match t.drop l.length with
  | '@' :: rest => !l.isEmpty && emailTail rest
  | _ => false

/-- Character class of the full-name pattern
(ASCII letters, the Turkish letter set, `\s`, hyphen, dot, apostrophe). -/
def nameChar (c : Char) : Bool :=
  isAsciiAlpha c ||
  c = 'ğ' || c = 'ü' || c = 'ş' || c = 'ı' || c = 'ö' || c = 'ç' ||
  c = 'Ğ' || c = 'Ü' || c = 'Ş' || c = 'İ' || c = 'Ö' || c = 'Ç' ||
  isPySpace c || c = '-' || c = '.' || c = apos

/-- Character class of the reset-token pattern `[a-zA-Z0-9\-_]`. -/
def tokenChar (c : Char) : Bool :=
  isAlnum c || c = '-' || c = '_'

/-- CPython `re.match` of the trading-pair pattern `[A-Z]` two to ten times
then the literal `USDT`, anchored: the whole string (up to one
trailing newline) is 2–10 uppercase letters followed by the literal `USDT`,
so its length determines the split. -/
def symbolMatch (s : List Char) : Bool :=
  let t := chopNL s
  let n := t.length
  decide (6 ≤ n) && decide (n ≤ 14) &&
  (t.take (n - 4)).all isAsciiUpper && decide (t.drop (n - 4) = "USDT".toList)

namespace UserRegister

/-- Translation of `UserRegister.validate_email`: lowercase, strip, then the e-mail regex;
returns the normalized string. -/
def validate_email (v : List Char) : Except String (List Char) :=
  let email_str := pyStrip (pyLower v)
  if emailMatch email_str = false then .error "Invalid email format"
  else .ok email_str

/-- Translation of `UserRegister.validate_password`: length in [6,128], at least one ASCII
letter (`re.search` with class `[A-Za-z]`) and one digit (`re.search` with `\d`). -/
def validate_password (v : List Char) : Except String (List Char) :=
  if v.length < 6 then .error "Password must be at least 6 characters"
  else if 128 < v.length then .error "Password too long"
  else if v.any isAsciiAlpha = false ∨ v.any isAsciiDigit = false then
    .error "Password must contain at least one letter and one number"
  else .ok v

/-- Translation of `UserRegister.validate_full_name`: strip and HTML-escape first, then the
length bounds [2,100] and the permitted-character regex on the escaped
value. -/
def validate_full_name (v : List Char) : Except String (List Char) :=
  let v := htmlEscape (pyStrip v)
  if v.length < 2 then .error "Full name must be at least 2 characters"
  else if 100 < v.length then .error "Full name too long"
  else if matchClassPlusEnd nameChar v = false then
    .error "Full name contains invalid characters"
  else .ok v

end UserRegister

namespace PasswordReset

/-- Translation of `PasswordReset.validate_email`: the e-mail regex is applied to the raw
value (no strip), and the raw value is returned lowercased (not stripped). -/
def validate_email (v : List Char) : Except String (List Char) :=
  if emailMatch v = false then .error "Invalid email format"
  else .ok (pyLower v)

end PasswordReset

namespace PasswordResetConfirm

/-- Translation of `PasswordResetConfirm.validate_token`: charset regex `^[a-zA-Z0-9\-_]+$`
first, then length in [10,200]. -/
def validate_token (v : List Char) : Except String (List Char) :=
  if matchClassPlusEnd tokenChar v = false then .error "Invalid token format"
  else if v.length < 10 ∨ 200 < v.length then .error "Invalid token length"
  else .ok v

/-- Translation of `PasswordResetConfirm.validate_password` (for `new_password`): minimum
length, then letter-and-digit, then maximum length. -/
def validate_password (v : List Char) : Except String (List Char) :=
  if v.length < 6 then .error "Password must be at least 6 characters"
  else if v.any isAsciiAlpha = false ∨ v.any isAsciiDigit = false then
    .error "Password must contain at least one letter and one number"
  else if 128 < v.length then .error "Password too long"
  else .ok v

end PasswordResetConfirm

namespace APIKeysUpdate

/-- Translation of `APIKeysUpdate.validate_api_credentials` (shared by `api_key` and
`api_secret`): strip, length in [10,200], then strictly alphanumeric. -/
def validate_api_credentials (v : List Char) : Except String (List Char) :=
  let v := pyStrip v
  if v.length < 10 ∨ 200 < v.length then
    .error "API credential length must be between 10-200 characters"
  else if matchClassPlusEnd isAlnum v = false then
    .error "API credentials contain invalid characters"
  else .ok v

end APIKeysUpdate

namespace BotControl

/-- Translation of `BotControl.validate_action`: exactly `start` or `stop`. -/
def validate_action (v : List Char) : Except String (List Char) :=
  if v = "start".toList ∨ v = "stop".toList then .ok v
  else .error "Action must be either \"start\" or \"stop\""

/-- Translation of `BotControl.validate_symbol`: `None` passes through; otherwise uppercase,
strip, length in [3,20], then the trading-pair regex `^[A-Z]{2,10}USDT$`. -/
def validate_symbol (v : Option (List Char)) : Except String (Option (List Char)) :=
  match v with
  | none => .ok none
  | some v =>
    let v := pyStrip (pyUpper v)
    if v.length < 3 ∨ 20 < v.length then
      .error "Symbol length must be between 3-20 characters"
    else if symbolMatch v = false then
      .error "Invalid symbol format. Must be like BTCUSDT"
    else .ok (some v)

end BotControl

namespace BotSettings

/-- Translation of `BotSettings.validate_order_size`: `10.0 <= v <= 1000.0`. -/
def validate_order_size (v : ℚ) : Except String ℚ :=
  if v < 10 ∨ 1000 < v then .error "Order size must be between 10-1000 USDT"
  else .ok v

/-- Translation of `BotSettings.validate_leverage`: integer in [1,20]. -/
def validate_leverage (v : ℤ) : Except String ℤ :=
  if v < 1 ∨ 20 < v then .error "Leverage must be between 1-20"
  else .ok v

/-- Translation of `BotSettings.validate_stop_loss`: `1.0 <= v <= 10.0`. -/
def validate_stop_loss (v : ℚ) : Except String ℚ :=
  if v < 1 ∨ 10 < v then .error "Stop loss must be between 1-10%"
  else .ok v

/-- Translation of `BotSettings.validate_take_profit`: `2.0 <= v <= 20.0`. -/
def validate_take_profit (v : ℚ) : Except String ℚ :=
  if v < 2 ∨ 20 < v then .error "Take profit must be between 2-20%"
  else .ok v

/-- Translation of `BotSettings.validate_timeframe`: member of the closed set. -/
def validate_timeframe (v : List Char) : Except String (List Char) :=
  if v = "1m".toList ∨ v = "5m".toList ∨ v = "15m".toList ∨
     v = "1h".toList ∨ v = "4h".toList then .ok v
  else .error "Timeframe must be one of: 1m, 5m, 15m, 1h, 4h"

end BotSettings

inductive UserRole where
  | user
  | admin
deriving DecidableEq, Repr

inductive SubscriptionStatus where
  | trial
  | active
  | expired
  | cancelled
deriving DecidableEq, Repr

/-- Python `datetime` values, modelled as abstract timestamps. -/
abbrev DateTime := Int

/-- The `UserData` response model (it declares no validators). -/
structure UserData where
  uid : List Char
  email : List Char
  full_name : List Char
  password_hash : List Char
  role : UserRole := .user
  subscription_status : SubscriptionStatus := .trial
  trial_end_date : Option DateTime := none
  subscription_end_date : Option DateTime := none
  created_at : Option DateTime := none
  is_blocked : Bool := false
  api_key_encrypted : Option (List Char) := none
  api_secret_encrypted : Option (List Char) := none
  is_testnet : Bool := false

/-- A persisted record a `UserData` is constructed from: the four required
fields, and every field with a default as `Option` (`none` = absent). -/
structure UserDataRecord where
  uid : List Char
  email : List Char
  full_name : List Char
  password_hash : List Char
  role : Option UserRole
  subscription_status : Option SubscriptionStatus
  trial_end_date : Option DateTime
  subscription_end_date : Option DateTime
  created_at : Option DateTime
  is_blocked : Option Bool
  api_key_encrypted : Option (List Char)
  api_secret_encrypted : Option (List Char)
  is_testnet : Option Bool

/-- Pydantic construction of `UserData` from a record: absent fields take
the model defaults; `UserData` has no validators, so construction never
rejects. -/
def UserData.fromRecord (r : UserDataRecord) : UserData :=
  { uid := r.uid
    email := r.email
    full_name := r.full_name
    password_hash := r.password_hash
    role := r.role.getD .user
    subscription_status := r.subscription_status.getD .trial
    trial_end_date := r.trial_end_date
    subscription_end_date := r.subscription_end_date
    created_at := r.created_at
    is_blocked := r.is_blocked.getD false
    api_key_encrypted := r.api_key_encrypted
    api_secret_encrypted := r.api_secret_encrypted
    is_testnet := r.is_testnet.getD false }

/-! Helper lemmas. -/

theorem mem_dropWhile_of_mem {p : Char → Bool} {c : Char} {l : List Char}
    (hc : c ∈ l) (hp : p c = false) : c ∈ l.dropWhile p := by
  induction l with
  | nil => cases hc
  | cons a t ih =>
    rw [List.dropWhile_cons]
    split_ifs with h
    · rcases List.mem_cons.mp hc with rfl | hct
      · rw [hp] at h; cases h
      · exact ih hct
    · exact hc

theorem mem_pyStrip {c : Char} {l : List Char} (hc : c ∈ l)
    (hs : isPySpace c = false) : c ∈ pyStrip l := by
  unfold pyStrip
  exact List.mem_reverse.mpr (mem_dropWhile_of_mem
    (List.mem_reverse.mpr (mem_dropWhile_of_mem hc hs)) hs)

theorem amp_semi_mem_escape {c : Char} {l : List Char}
    (hcl : c ∈ l) (hc : c = apos ∨ c = '&' ∨ c = '"') :
    '&' ∈ htmlEscape l ∧ ';' ∈ htmlEscape l := by
  unfold htmlEscape
  refine ⟨List.mem_flatMap.mpr ⟨c, hcl, ?_⟩, List.mem_flatMap.mpr ⟨c, hcl, ?_⟩⟩ <;>
    rcases hc with rfl | rfl | rfl <;> decide

theorem two_le_length_of_two_mem {a b : Char} {l : List Char}
    (ha : a ∈ l) (hb : b ∈ l) (hab : a ≠ b) : 2 ≤ l.length := by
  cases l with
  | nil => cases ha
  | cons x t =>
    cases t with
    | nil =>
      simp only [List.mem_singleton] at ha hb
      exact absurd (ha.trans hb.symm) hab
    | cons y u => simp only [List.length_cons]; omega

theorem mem_dropLast_of_ne_last {c : Char} {l : List Char} (hc : c ∈ l)
    (hl : l.getLast? = some '\n') (hne : c ≠ '\n') : c ∈ l.dropLast := by
  induction l with
  | nil => cases hc
  | cons a t ih =>
    cases t with
    | nil =>
      simp only [List.getLast?_singleton, Option.some.injEq] at hl
      rcases List.mem_singleton.mp hc with rfl
      exact absurd hl hne
    | cons b u =>
      rw [List.getLast?_cons_cons] at hl
      rw [List.dropLast_cons₂]
      rcases List.mem_cons.mp hc with rfl | hct
      · exact List.mem_cons_self _ _
      · exact List.mem_cons_of_mem _ (ih hct hl)

theorem matchClassPlusEnd_eq_false_of_semi {C : Char → Bool} {e : List Char}
    (h : ';' ∈ e) (hC : C ';' = false) : matchClassPlusEnd C e = false := by
  unfold matchClassPlusEnd chopNL
  have hmem : ';' ∈ (if e.getLast? = some '\n' then e.dropLast else e) := by
    split_ifs with hl
    · exact mem_dropLast_of_ne_last h hl (by decide)
    · exact h
  have hall : (if e.getLast? = some '\n' then e.dropLast else e).all C = false := by
    cases hb0 : (if e.getLast? = some '\n' then e.dropLast else e).all C with
    | false => rfl
    | true => rw [(List.all_eq_true.mp hb0) ';' hmem] at hC; cases hC
  simp [hall]

/-! Claim theorems. -/

/-- Claim C1: `UserRegister.validate_full_name` trims and HTML-escapes the raw
value first and only then applies the [2,100] length bound and the
permitted-character regex (a success always returns the escaped, stripped
value, and the checks hold of that value); in particular the input
`<b>Al</b>` is rejected with the invalid-full-name error, because its
escaped form contains characters outside the permitted charset. -/
theorem C1_full_name_escape_before_checks :
    (∀ v w, UserRegister.validate_full_name v = .ok w ↔
      (w = htmlEscape (pyStrip v) ∧ 2 ≤ w.length ∧ w.length ≤ 100 ∧
        matchClassPlusEnd nameChar w = true)) ∧
    UserRegister.validate_full_name "<b>Al</b>".toList =
      .error "Full name contains invalid characters" := by
  constructor
  · intro v w
    simp only [UserRegister.validate_full_name]
    split_ifs with h1 h2 h3
    · constructor
      · intro h; cases h
      · rintro ⟨rfl, hge, _, _⟩; omega
    · constructor
      · intro h; cases h
      · rintro ⟨rfl, _, hle, _⟩; omega
    · constructor
      · intro h; cases h
      · rintro ⟨rfl, _, _, hm⟩; rw [hm] at h3; cases h3
    · constructor
      · intro h
        injection h with h
        subst h
        refine ⟨rfl, by omega, by omega, ?_⟩
        simpa using h3
      · rintro ⟨rfl, _, _, _⟩; rfl
  · decide

/-- Claim C3: the API-credential validator and the reset-token validator use
different charsets: `abc-123-xyz` fails the credential check with the
invalid-characters error because of the hyphen, while the 12-character
token `abc-123-xyz9` passes the token check and is returned unchanged. -/
theorem C3_credential_vs_token_charsets :
    APIKeysUpdate.validate_api_credentials "abc-123-xyz".toList =
      .error "API credentials contain invalid characters" ∧
    PasswordResetConfirm.validate_token "abc-123-xyz9".toList =
      .ok "abc-123-xyz9".toList := by decide

/-- Claim C10: the `$` anchor of the token pattern also matches before a trailing
newline, so the 11-character input `abcdef1234\n` is accepted and returned
with its newline, although not all of its characters are in the token
charset. -/
theorem C10_token_trailing_newline_accepted :
    PasswordResetConfirm.validate_token "abcdef1234\n".toList =
      .ok "abcdef1234\n".toList ∧
    ("abcdef1234\n".toList).all tokenChar = false ∧
    ("abcdef1234\n".toList).length = 11 := by decide

/-- Claim C8: constructing `UserData` from a record in which every optional field
is absent succeeds and leaves `trial_end_date`, `subscription_end_date`,
`created_at`, `api_key_encrypted` and `api_secret_encrypted` null
(`UserData` declares no validators, so nothing rejects the construction). -/
theorem C8_userdata_absent_optionals_default_null :
    ∀ uid email full_name password_hash,
      (UserData.fromRecord ⟨uid, email, full_name, password_hash,
        none, none, none, none, none, none, none, none, none⟩).trial_end_date = none ∧
      (UserData.fromRecord ⟨uid, email, full_name, password_hash,
        none, none, none, none, none, none, none, none, none⟩).subscription_end_date = none ∧
      (UserData.fromRecord ⟨uid, email, full_name, password_hash,
        none, none, none, none, none, none, none, none, none⟩).created_at = none ∧
      (UserData.fromRecord ⟨uid, email, full_name, password_hash,
        none, none, none, none, none, none, none, none, none⟩).api_key_encrypted = none ∧
      (UserData.fromRecord ⟨uid, email, full_name, password_hash,
        none, none, none, none, none, none, none, none, none⟩).api_secret_encrypted = none :=
  fun _ _ _ _ => ⟨rfl, rfl, rfl, rfl, rfl⟩

/-- Claim C4: the registration password validator accepts exactly the strings of
length 6 to 128 containing at least one letter and at least one digit,
returning the value unchanged; `abc123` is accepted, `abcdef`, `123456` and
`a1` are rejected, and every 129-character password is rejected as too
long. -/
theorem C4_registration_password_rule :
    (∀ v w, UserRegister.validate_password v = .ok w ↔
      (w = v ∧ 6 ≤ v.length ∧ v.length ≤ 128 ∧
        v.any isAsciiAlpha = true ∧ v.any isAsciiDigit = true)) ∧
    UserRegister.validate_password "abc123".toList = .ok "abc123".toList ∧
    UserRegister.validate_password "abcdef".toList =
      .error "Password must contain at least one letter and one number" ∧
    UserRegister.validate_password "123456".toList =
      .error "Password must contain at least one letter and one number" ∧
    UserRegister.validate_password "a1".toList =
      .error "Password must be at least 6 characters" ∧
    (∀ v, v.length = 129 →
      UserRegister.validate_password v = .error "Password too long") := by
  refine ⟨?_, by decide, by decide, by decide, by decide, ?_⟩
  · intro v w
    simp only [UserRegister.validate_password]
    split_ifs with h1 h2 h3
    · constructor
      · intro h; cases h
      · rintro ⟨rfl, _, _, _⟩; omega
    · constructor
      · intro h; cases h
      · rintro ⟨rfl, _, _, _⟩; omega
    · constructor
      · intro h; cases h
      · rintro ⟨rfl, _, _, ha, hd⟩
        rcases h3 with h3 | h3 <;> simp_all
    · constructor
      · intro h
        injection h with h
        subst h
        push_neg at h3
        exact ⟨rfl, by omega, by omega,
          by simpa using h3.1, by simpa using h3.2⟩
      · rintro ⟨rfl, _, _, _⟩; rfl
  · intro v hv
    simp only [UserRegister.validate_password]
    split_ifs with h1 h2 h3 <;> first | rfl | (exfalso; omega)

/-- Claim C4, witness for the hypothesis-bearing conjunct: a concrete
129-character password is rejected as too long. -/
theorem C4_registration_password_rule_witness :
    UserRegister.validate_password (List.replicate 129 'a') =
      .error "Password too long" :=
  C4_registration_password_rule.2.2.2.2.2 (List.replicate 129 'a') (by simp)

/-- Claim C5: `PasswordResetConfirm.validate_password` (for `new_password`)
succeeds on exactly the inputs on which `UserRegister.validate_password`
succeeds, with the same returned value, and on success the value is the
input unchanged (the error messages may differ, only acceptance agrees). -/
theorem C5_reset_password_same_rule :
    (∀ v w, PasswordResetConfirm.validate_password v = .ok w ↔
      UserRegister.validate_password v = .ok w) ∧
    (∀ v w, PasswordResetConfirm.validate_password v = .ok w → w = v) := by
  constructor
  · intro v w
    simp only [PasswordResetConfirm.validate_password,
      UserRegister.validate_password]
    split_ifs <;> rfl
  · intro v w h
    simp only [PasswordResetConfirm.validate_password] at h
    split_ifs at h
    injection h with h
    exact h.symm

/-- Claim C5, witness: both validators accept the concrete input `abc123` and
return it unchanged. -/
theorem C5_reset_password_same_rule_witness :
    UserRegister.validate_password "abc123".toList = .ok "abc123".toList ∧
    "abc123".toList = "abc123".toList :=
  ⟨(C5_reset_password_same_rule.1 "abc123".toList "abc123".toList).mp (by decide),
   C5_reset_password_same_rule.2 "abc123".toList "abc123".toList (by decide)⟩

/-- Claim C2, counterexample: `a@b.co` matches the e-mail pattern, yet
`PasswordReset.validate_email` rejects it when it is surrounded by
whitespace, because that validator never strips its input — refuting the
claim that both e-mail validators accept every valid e-mail surrounded by
whitespace. -/
theorem C2_counterexample_reset_email_not_stripped :
    emailMatch "a@b.co".toList = true ∧
    PasswordReset.validate_email " a@b.co ".toList =
      .error "Invalid email format" ∧
    UserRegister.validate_email " a@b.co ".toList = .ok "a@b.co".toList := by
  decide

/-- Claim C2, amended: `UserRegister.validate_email` lowercases, strips, and then
requires the e-mail pattern (whose `$` tolerates one trailing newline),
returning the normalized form; `PasswordReset.validate_email` instead
matches the raw, unstripped value against the same pattern and returns it
lowercased but not stripped, so a valid e-mail surrounded by whitespace is
accepted (normalized) by the former and rejected by the latter, and a
trailing newline survives the latter. -/
theorem C2_amended_email_normalization :
    (∀ v w, UserRegister.validate_email v = .ok w ↔
      (emailMatch (pyStrip (pyLower v)) = true ∧ w = pyStrip (pyLower v))) ∧
    (∀ v w, PasswordReset.validate_email v = .ok w ↔
      (emailMatch v = true ∧ w = pyLower v)) ∧
    UserRegister.validate_email " A@b.co ".toList = .ok "a@b.co".toList ∧
    PasswordReset.validate_email " a@b.co ".toList =
      .error "Invalid email format" ∧
    PasswordReset.validate_email "a@b.co\n".toList =
      .ok "a@b.co\n".toList := by
  refine ⟨?_, ?_, by decide, by decide, by decide⟩
  · intro v w
    simp only [UserRegister.validate_email]
    split_ifs with h
    · constructor
      · intro hk; cases hk
      · rintro ⟨hm, rfl⟩; rw [hm] at h; cases h
    · constructor
      · intro hk
        injection hk with hk
        subst hk
        exact ⟨by simpa using h, rfl⟩
      · rintro ⟨_, rfl⟩; rfl
  · intro v w
    simp only [PasswordReset.validate_email]
    split_ifs with h
    · constructor
      · intro hk; cases hk
      · rintro ⟨hm, rfl⟩; rw [hm] at h; cases h
    · constructor
      · intro hk
        injection hk with hk
        subst hk
        exact ⟨by simpa using h, rfl⟩
      · rintro ⟨_, rfl⟩; rfl

/-- Claim C6: `BotControl.symbol` is optional (`None` passes through); a present
value is uppercased and trimmed, must have length in [3,20] and then fully
match the trading-pair pattern, the pattern being authoritative: `btcusdt`
normalizes to `BTCUSDT`, `BTCUSD` is rejected as not USDT-quoted, and the
action `buy` is rejected (only `start` and `stop` are accepted). -/
theorem C6_symbol_and_action_validation :
    BotControl.validate_symbol (some "btcusdt".toList) =
      .ok (some "BTCUSDT".toList) ∧
    BotControl.validate_symbol (some "BTCUSD".toList) =
      .error "Invalid symbol format. Must be like BTCUSDT" ∧
    BotControl.validate_action "buy".toList =
      .error "Action must be either \"start\" or \"stop\"" ∧
    BotControl.validate_symbol none = .ok none ∧
    (∀ v w, BotControl.validate_symbol (some v) = .ok w ↔
      (w = some (pyStrip (pyUpper v)) ∧ 3 ≤ (pyStrip (pyUpper v)).length ∧
        (pyStrip (pyUpper v)).length ≤ 20 ∧
        symbolMatch (pyStrip (pyUpper v)) = true)) ∧
    (∀ a, BotControl.validate_action a = .ok a ↔
      (a = "start".toList ∨ a = "stop".toList)) := by
  refine ⟨by decide, by decide, by decide, rfl, ?_, ?_⟩
  · intro v w
    simp only [BotControl.validate_symbol]
    split_ifs with h1 h2
    · constructor
      · intro h; cases h
      · rintro ⟨rfl, _, _, _⟩; omega
    · constructor
      · intro h; cases h
      · rintro ⟨rfl, _, _, hm⟩; rw [hm] at h2; cases h2
    · constructor
      · intro h
        injection h with h
        subst h
        push_neg at h1
        exact ⟨rfl, by omega, by omega, by simpa using h2⟩
      · rintro ⟨rfl, _, _, _⟩; rfl
  · intro a
    simp only [BotControl.validate_action]
    split_ifs with h
    · constructor
      · intro _; exact h
      · intro _; rfl
    · constructor
      · intro hk; cases hk
      · intro hk; exact absurd hk h

/-- Claim C7: the `BotSettings` validators enforce inclusive numeric bounds —
leverage 20 is accepted, 25 rejected; order size must lie in [10,1000],
stop loss in [1,10], take profit in [2,20] — and the timeframe must belong
to the closed set `1m 5m 15m 1h 4h`, so `30m` is rejected. -/
theorem C7_bot_settings_bounds :
    BotSettings.validate_leverage 20 = .ok 20 ∧
    BotSettings.validate_leverage 25 = .error "Leverage must be between 1-20" ∧
    (∀ v : ℤ, BotSettings.validate_leverage v = .ok v ↔ (1 ≤ v ∧ v ≤ 20)) ∧
    (∀ v : ℚ, BotSettings.validate_order_size v = .ok v ↔ (10 ≤ v ∧ v ≤ 1000)) ∧
    (∀ v : ℚ, BotSettings.validate_stop_loss v = .ok v ↔ (1 ≤ v ∧ v ≤ 10)) ∧
    (∀ v : ℚ, BotSettings.validate_take_profit v = .ok v ↔ (2 ≤ v ∧ v ≤ 20)) ∧
    (∀ t, BotSettings.validate_timeframe t = .ok t ↔
      (t = "1m".toList ∨ t = "5m".toList ∨ t = "15m".toList ∨
        t = "1h".toList ∨ t = "4h".toList)) ∧
    BotSettings.validate_timeframe "30m".toList =
      .error "Timeframe must be one of: 1m, 5m, 15m, 1h, 4h" := by
  refine ⟨by decide, by decide, ?_, ?_, ?_, ?_, ?_, by decide⟩
  · intro v
    simp only [BotSettings.validate_leverage]
    split_ifs with h
    · constructor
      · intro hk; cases hk
      · rintro ⟨h1, h2⟩; rcases h with h | h <;> omega
    · push_neg at h
      simp only [true_iff]
      exact ⟨by omega, by omega⟩
  · intro v
    simp only [BotSettings.validate_order_size]
    split_ifs with h
    · constructor
      · intro hk; cases hk
      · rintro ⟨h1, h2⟩; rcases h with h | h <;> linarith
    · push_neg at h
      simp only [true_iff]
      exact ⟨h.1, h.2⟩
  · intro v
    simp only [BotSettings.validate_stop_loss]
    split_ifs with h
    · constructor
      · intro hk; cases hk
      · rintro ⟨h1, h2⟩; rcases h with h | h <;> linarith
    · push_neg at h
      simp only [true_iff]
      exact ⟨h.1, h.2⟩
  · intro v
    simp only [BotSettings.validate_take_profit]
    split_ifs with h
    · constructor
      · intro hk; cases hk
      · rintro ⟨h1, h2⟩; rcases h with h | h <;> linarith
    · push_neg at h
      simp only [true_iff]
      exact ⟨h.1, h.2⟩
  · intro t
    simp only [BotSettings.validate_timeframe]
    split_ifs with h
    · constructor
      · intro _; exact h
      · intro _; rfl
    · constructor
      · intro hk; cases hk
      · intro hk; exact absurd hk h

/-- Claim C9, counterexample: the 96-character name of 95 `a`s followed by an
apostrophe contains an apostrophe, yet `validate_full_name` rejects it with
the too-long error (its escaped form has 101 characters), not with the
invalid-characters error — refuting the claim that every input containing
an apostrophe, ampersand or double quote fails with the invalid-characters
error. -/
theorem C9_counterexample_long_name_fails_as_too_long :
    apos ∈ (List.replicate 95 'a' ++ [apos]) ∧
    UserRegister.validate_full_name (List.replicate 95 'a' ++ [apos]) =
      .error "Full name too long" ∧
    UserRegister.validate_full_name (List.replicate 95 'a' ++ [apos]) ≠
      .error "Full name contains invalid characters" := by decide

/-- Claim C9, amended: every registration input whose full name contains an
apostrophe, ampersand or double quote is rejected (HTML-escaping runs
before the charset check and turns these characters into entities whose
`;` is outside the permitted charset); when the escaped, stripped value is
within the 100-character bound the error is precisely the
invalid-characters error, otherwise it is the too-long error — so a name
containing an apostrophe (such as the witness input, O + apostrophe +
Brien) is always rejected even though the apostrophe itself is in the
permitted charset. -/
theorem C9_amended_special_chars_always_rejected :
    ∀ (v : List Char) (c : Char), (c = apos ∨ c = '&' ∨ c = '"') → c ∈ v →
      (∃ e, UserRegister.validate_full_name v = .error e) ∧
      ((htmlEscape (pyStrip v)).length ≤ 100 →
        UserRegister.validate_full_name v =
          .error "Full name contains invalid characters") := by
  intro v c hc hcv
  have hns : isPySpace c = false := by rcases hc with rfl | rfl | rfl <;> decide
  have hmem : c ∈ pyStrip v := mem_pyStrip hcv hns
  obtain ⟨hamp, hsemi⟩ := amp_semi_mem_escape hmem hc
  have hlen : 2 ≤ (htmlEscape (pyStrip v)).length :=
    two_le_length_of_two_mem hamp hsemi (by decide)
  have hmatch : matchClassPlusEnd nameChar (htmlEscape (pyStrip v)) = false :=
    matchClassPlusEnd_eq_false_of_semi hsemi (by decide)
  constructor
  · simp only [UserRegister.validate_full_name]
    split_ifs with h1 h2
    · exact ⟨_, rfl⟩
    · exact ⟨_, rfl⟩
    · exact ⟨_, rfl⟩
  · intro hle
    simp only [UserRegister.validate_full_name]
    split_ifs with h1 h2
    · omega
    · omega
    · rfl

/-- Claim C9, witness for the amended theorem: the concrete name O + apostrophe + Brien is
rejected with the invalid-characters error. -/
theorem C9_amended_special_chars_witness :
    (∃ e, UserRegister.validate_full_name
        ("O".toList ++ [apos] ++ "Brien".toList) = .error e) ∧
    UserRegister.validate_full_name ("O".toList ++ [apos] ++ "Brien".toList) =
      .error "Full name contains invalid characters" := by
  have h := C9_amended_special_chars_always_rejected
    ("O".toList ++ [apos] ++ "Brien".toList) apos (Or.inl rfl) (by decide)
  exact ⟨h.1, h.2 (by decide)⟩

end EzModels
